import Mathlib

/-!
# A shallow embedding of the entitlement / payment / referral ledger of `bot.py`

The repository is a Telegram bot (`src/bot.py`) backed by a SQLite database
with four tables: `users`, `payments`, `scripts`, `referrals`.  This file
embeds the ledger-relevant rows and the pure state transformations performed
by the database helper functions and the settlement / generation flows:

* `update_user_balance`, `set_user_last_free`, `inc_total_generated`
* `update_payment_status`, `get_payment_by_yk_id`
* `create_referral_record`, `find_unrewarded_referral`, `mark_referral_rewarded`
* `reward_referrer_and_notify` (the body of `_reward_referrer_and_notify`)
* `yk_webhook_handler` (the YooKassa webhook entry point)
* `process_generation` (the entitlement decision + generation + refund flow)
* `split_message` (chunking of long messages)

Tables are modelled as lists of rows kept in insertion (rowid) order; SQLite
`UPDATE ... WHERE` becomes a `List.map` that rewrites the matching rows, and
`SELECT ... LIMIT 1` (or `fetchone`) becomes `List.find?`.  Wall-clock
instants are integers (seconds since the epoch, UTC); `datetime` subtraction
and `timedelta(hours=h)` comparisons become integer arithmetic in seconds.
External effects (Telegram messages, the OpenAI call) are irrelevant to the
ledger state and are represented by an outcome value / a boolean telling
whether the external generation call succeeded.
-/

/-- A row of the `users` table (`init_db` in `bot.py`). -/
structure UserRow where
  user_id : Nat
  username : Option String
  balance : Int
  last_free_at : Option Int
  total_generated : Int
  referred_by : Option Nat
  created_at : Int
deriving DecidableEq, Repr

/-- A row of the `payments` table. The field `id` is the AUTOINCREMENT
primary key, `yk_id` the provider-issued payment id. -/
structure PaymentRow where
  id : Nat
  user_id : Nat
  package_code : String
  package_count : Int
  amount : Int
  status : String
  yk_id : String
  referrer_id : Option Nat
  created_at : Int
  updated_at : Int
deriving DecidableEq, Repr

/-- A row of the `scripts` table. -/
structure ScriptRow where
  id : Nat
  user_id : Nat
  theme : String
  niche : Option String
  tone : Option String
  content : String
  hooks_generated : Bool
  cover_generated : Bool
  created_at : Int
deriving DecidableEq, Repr

/-- A row of the `referrals` table. The `rewarded` flag is stored as
INTEGER 0/1 in SQLite and embedded as `Bool`. -/
structure ReferralRow where
  id : Nat
  referrer_id : Nat
  referee_id : Nat
  rewarded : Bool
  payment_id : Option Nat
  created_at : Int
deriving DecidableEq, Repr

/-- The whole SQLite database. The `next_*_id` counters model the
AUTOINCREMENT behaviour of the corresponding integer primary keys. -/
structure DB where
  users : List UserRow
  payments : List PaymentRow
  scripts : List ScriptRow
  referrals : List ReferralRow
  next_payment_id : Nat
  next_script_id : Nat
  next_referral_id : Nat
deriving DecidableEq, Repr

/-- Embeds `SELECT * FROM users WHERE user_id=?` / `fetchone`. -/
def get_user_row (db : DB) (user_id : Nat) : Option UserRow :=
  db.users.find? (fun u => decide (u.user_id = user_id))

/-- Embeds `update_user_balance` in `bot.py`:
`UPDATE users SET balance = balance + ? WHERE user_id=?`.
The delta is applied unconditionally; there is no sign check. -/
def update_user_balance (db : DB) (user_id : Nat) (delta : Int) : DB :=
  { db with
    users := db.users.map (fun u =>
      if u.user_id = user_id then { u with balance := u.balance + delta } else u) }

/-- Embeds `set_user_last_free` in `bot.py`:
`UPDATE users SET last_free_at=? WHERE user_id=?`. -/
def set_user_last_free (db : DB) (user_id : Nat) (when_utc : Int) : DB :=
  { db with
    users := db.users.map (fun u =>
      if u.user_id = user_id then { u with last_free_at := some when_utc } else u) }

/-- Embeds `inc_total_generated` in `bot.py`:
`UPDATE users SET total_generated = total_generated + 1 WHERE user_id=?`. -/
def inc_total_generated (db : DB) (user_id : Nat) : DB :=
  { db with
    users := db.users.map (fun u =>
      if u.user_id = user_id then { u with total_generated := u.total_generated + 1 } else u) }

/-- Embeds `update_payment_status` in `bot.py`: unconditionally
`UPDATE payments SET status=?, updated_at=? WHERE yk_id=?`, then
`SELECT * FROM payments WHERE yk_id=?` / `fetchone`. Note there is no check
that the payment is not already in a terminal state. -/
def update_payment_status (db : DB) (yk_id : String) (new_status : String) (now : Int) :
    DB × Option PaymentRow :=
  let db' := { db with
    payments := db.payments.map (fun p =>
      if p.yk_id = yk_id then { p with status := new_status, updated_at := now } else p) }
  (db', db'.payments.find? (fun p => decide (p.yk_id = yk_id)))

/-- Embeds `get_payment_by_yk_id` in `bot.py`. -/
def get_payment_by_yk_id (db : DB) (yk_id : String) : Option PaymentRow :=
  db.payments.find? (fun p => decide (p.yk_id = yk_id))

/-- Embeds `create_script_record` in `bot.py` (INSERT into `scripts`,
returns `lastrowid`). -/
def create_script_record (db : DB) (user_id : Nat) (theme : String)
    (niche tone : Option String) (content : String) (now : Int) : DB × Nat :=
  let sid := db.next_script_id
  ({ db with
     scripts := db.scripts ++
       [{ id := sid, user_id := user_id, theme := theme, niche := niche, tone := tone,
          content := content, hooks_generated := false, cover_generated := false,
          created_at := now }],
     next_script_id := sid + 1 }, sid)

/-- Embeds `create_referral_record` in `bot.py`
(`INSERT INTO referrals (referrer_id, referee_id, rewarded, created_at)
VALUES (?, ?, 0, ?)`, returns `lastrowid`). -/
def create_referral_record (db : DB) (referrer_id referee_id : Nat) (now : Int) : DB × Nat :=
  let rid := db.next_referral_id
  ({ db with
     referrals := db.referrals ++
       [{ id := rid, referrer_id := referrer_id, referee_id := referee_id,
          rewarded := false, payment_id := none, created_at := now }],
     next_referral_id := rid + 1 }, rid)

/-- Embeds `find_unrewarded_referral` in `bot.py`:
`SELECT * FROM referrals WHERE referrer_id=? AND referee_id=? AND rewarded=0
ORDER BY id ASC LIMIT 1` (the list is kept in ascending id order). -/
def find_unrewarded_referral (db : DB) (referrer_id referee_id : Nat) : Option ReferralRow :=
  db.referrals.find? (fun r =>
    decide (r.referrer_id = referrer_id) && decide (r.referee_id = referee_id) && !r.rewarded)

/-- Embeds `mark_referral_rewarded` in `bot.py`:
`UPDATE referrals SET rewarded=1, payment_id=? WHERE id=?`. -/
def mark_referral_rewarded (db : DB) (referral_id : Nat) (payment_id : Option Nat) : DB :=
  { db with
    referrals := db.referrals.map (fun r =>
      if r.id = referral_id then { r with rewarded := true, payment_id := payment_id } else r) }

/-- The ledger effect of `_reward_referrer_and_notify` in `bot.py`.
Python's `if not referrer_id: return` treats both `NULL` and `0` as absent.
If an unrewarded referral row exists it is rewarded; otherwise a fresh row is
created and immediately rewarded — in both branches the referrer is credited
`+1`. The Telegram notification is an external effect outside the ledger. -/
def reward_referrer_and_notify (db : DB) (payment_row : PaymentRow) (now : Int) : DB :=
  match payment_row.referrer_id with
  | none => db
  | some referrer_id =>
    if referrer_id = 0 then db
    else
      let referee_id := payment_row.user_id
      match find_unrewarded_referral db referrer_id referee_id with
      | none =>
        let (db1, rid) := create_referral_record db referrer_id referee_id now
        let db2 := update_user_balance db1 referrer_id 1
        mark_referral_rewarded db2 rid (some payment_row.id)
      | some ref =>
        let db1 := update_user_balance db referrer_id 1
        mark_referral_rewarded db1 ref.id (some payment_row.id)

/-- An aiohttp `web.Response` (status code and body text). -/
structure WebResponse where
  status : Nat
  text : String
deriving DecidableEq, Repr

/-- The ledger effect of `yk_webhook_handler` in `bot.py`, after JSON
parsing: `event` is `data.get("event")` and `yk_id` is
`data.get("object", {}).get("id")` (`none` or `""` are falsy, answered with
400). On `payment.succeeded` the status is updated, the owning user is
credited `package_count`, and the referrer reward runs; on
`payment.canceled`, `payment.waiting_for_capture` and `refund.succeeded` the
status is set to `"canceled"`; any other event is ignored. -/
def yk_webhook_handler (db : DB) (event : Option String) (yk_id : Option String) (now : Int) :
    DB × WebResponse :=
  match yk_id with
  | none => (db, ⟨400, "No payment id"⟩)
  | some yk =>
    if yk = "" then (db, ⟨400, "No payment id"⟩)
    else if event = some "payment.succeeded" then
      let (db1, row) := update_payment_status db yk "succeeded" now
      match row with
      | some r =>
        let db2 := update_user_balance db1 r.user_id r.package_count
        let db3 := reward_referrer_and_notify db2 r now
        (db3, ⟨200, "ok"⟩)
      | none => (db1, ⟨200, "ok"⟩)
    else if event = some "payment.canceled" ∨ event = some "payment.waiting_for_capture" ∨
        event = some "refund.succeeded" then
      ((update_payment_status db yk "canceled" now).1, ⟨200, "ok"⟩)
    else
      (db, ⟨200, "ok"⟩)

/-- Embeds `FREE_COOLDOWN_HOURS = 24 * 7` in `bot.py` — one free generation
per 7 days (a rolling cooldown on `last_free_at`, not a daily counter). -/
def FREE_COOLDOWN_HOURS : Int := 24 * 7

/-- The inner `can_use_free` closure of `process_generation`:
free if the user row is absent, `last_free_at` is NULL, or
`now - last >= timedelta(hours=FREE_COOLDOWN_HOURS)` (times in seconds). -/
def can_use_free (now : Int) (row : Option UserRow) : Bool :=
  match row with
  | none => true
  | some r =>
    match r.last_free_at with
    | none => true
    | some last => decide (now - last ≥ FREE_COOLDOWN_HOURS * 3600)

/-- Python `s.startswith(pre)`: `pre` is a prefix of `s` (stated on the
character lists so that it evaluates by kernel reduction). -/
def str_startswith (s pre : String) : Bool := pre.data.isPrefixOf s.data

/-- The user-visible outcome of `process_generation`. -/
inductive GenResult
  /-- Message "У вас нет баланса. Купите пакет сценариев." -/
  | denied_no_balance : GenResult
  /-- Message "Увы, бесплатный доступ будет через ~{hours} ч." -/
  | denied_cooldown (hours : Int) : GenResult
  /-- The script was generated and sent; `paid_by` is the Python `paid_by`
  string ("баланс (-1)" or "бесплатный за неделю"). -/
  | generated (paid_by : String) : GenResult
  /-- The external generation call raised; the failure handler ran. -/
  | gen_failed (paid_by : String) : GenResult
deriving DecidableEq, Repr

/-- The ledger effect of `process_generation` in `bot.py`.

The decision, in source order: if the row exists and `balance > 0`, debit one
credit up front (`paid_by = "баланс (-1)"`); else if `can_use_free()`, record
`last_free_at = now` up front (`paid_by = "бесплатный за неделю"`); else deny
with the remaining cooldown hours. Then the external OpenAI call runs
(`gen_ok` tells whether it succeeded): on success the script row is inserted
and `total_generated` incremented; on failure the `except` block refunds `+1`
only when `paid_by` starts with `"баланс"` — `last_free_at` is not
restored. -/
def process_generation (db : DB) (user_id : Nat) (now : Int) (theme : String)
    (niche tone : Option String) (gen_ok : Bool) (script : String) : DB × GenResult :=
  let row := get_user_row db user_id
  let afterPay := fun (db1 : DB) (paid_by : String) =>
    if gen_ok then
      let db2 := (create_script_record db1 user_id theme niche tone script now).1
      let db3 := inc_total_generated db2 user_id
      (db3, GenResult.generated paid_by)
    else
      let db2 := if paid_by ≠ "" ∧ str_startswith paid_by "баланс" then
        update_user_balance db1 user_id 1 else db1
      (db2, GenResult.gen_failed paid_by)
  if (match row with | some r => decide (r.balance > 0) | none => false) then
    afterPay (update_user_balance db user_id (-1)) "баланс (-1)"
  else if can_use_free now row then
    afterPay (set_user_last_free db user_id now) "бесплатный за неделю"
  else
    match row with
    | none => (db, GenResult.denied_no_balance)
    | some r =>
      match r.last_free_at with
      | none => (db, GenResult.denied_no_balance)
      | some last =>
        let remain_seconds := last + FREE_COOLDOWN_HOURS * 3600 - now
        (db, GenResult.denied_cooldown (remain_seconds / 3600))

/-- The UTC calendar day containing an instant (seconds since the epoch);
used only to state the spec's "per UTC calendar day" reading of the free
quota. -/
def utc_day (t : Int) : Int := t / 86400

/-- Modelled from the spec: no premium window exists anywhere in
`src/bot.py` (the `users` table has no `premiumUntil` column and no handler
extends one), so `ExtendPremium` is taken from §4.1 of the spec: "if an
existing `premiumUntil >= today` exists, extends from that date; otherwise
extends from today. Returns the resulting date." Dates are day numbers. -/
def ExtendPremium (premiumUntil : Option Int) (today : Int) (days : Int) : Int :=
  match premiumUntil with
  | some d => if d ≥ today then d + days else today + days
  | none => today + days

/-- Python `str.splitlines(keepends=True)` line-break set (`bot.py` feeds
`str.splitlines` output to `split_message`): LF, VT, FF, CR, FS, GS, RS,
NEL, LINE SEPARATOR, PARAGRAPH SEPARATOR; CR LF counts as one break. -/
def isLineBreak (c : Char) : Bool :=
  [0x0a, 0x0b, 0x0c, 0x0d, 0x1c, 0x1d, 0x1e, 0x85, 0x2028, 0x2029].contains c.toNat

/-- One step of `str.splitlines(keepends=True)`: the first line (with its
terminator kept) and the remaining text. -/
def takeLine : List Char → List Char × List Char
  | [] => ([], [])
  | c :: rest =>
    if isLineBreak c then
      if c = '\r' then
        match rest with
        | [] => (['\r'], [])
        | d :: rest2 => if d = '\n' then (['\r', '\n'], rest2) else (['\r'], d :: rest2)
      else ([c], rest)
    else
      (c :: (takeLine rest).1, (takeLine rest).2)

/-- Python `text.splitlines(keepends=True)` on a list of characters. -/
def splitlines : List Char → List (List Char)
  | [] => []
  | c :: rest =>
    (takeLine (c :: rest)).1 :: splitlines (takeLine (c :: rest)).2
termination_by s => s.length
decreasing_by
  have hle : ∀ (s : List Char), (takeLine s).2.length ≤ s.length := by
    intro s
    induction s with
    | nil => simp [takeLine]
    | cons a tl ih =>
      by_cases hb : isLineBreak a
      · by_cases hc : a = '\r'
        · subst hc
          cases tl with
          | nil => simp [takeLine, (by decide : isLineBreak '\r' = true)]
          | cons d tl2 =>
            by_cases hd : d = '\n'
            · subst hd
              simp [takeLine, (by decide : isLineBreak '\r' = true)]
              omega
            · simp [takeLine, (by decide : isLineBreak '\r' = true), hd]
        · simp [takeLine, hb, hc]
      · simp only [takeLine, hb, if_false]
        simpa using Nat.le_succ_of_le ih
  have hlt : ∀ (a : Char) (tl : List Char),
      (takeLine (a :: tl)).2.length < (a :: tl).length := by
    intro a tl
    by_cases hb : isLineBreak a
    · by_cases hc : a = '\r'
      · subst hc
        cases tl with
        | nil => simp [takeLine, (by decide : isLineBreak '\r' = true)]
        | cons d tl2 =>
          by_cases hd : d = '\n'
          · subst hd
            simp [takeLine, (by decide : isLineBreak '\r' = true)]
            omega
          · simp [takeLine, (by decide : isLineBreak '\r' = true), hd]
      · simp [takeLine, hb, hc]
    · simp only [takeLine, hb, if_false]
      simpa using Nat.lt_succ_of_le (hle tl)
  exact hlt _ _

/-- One iteration of the `for line in text.splitlines(keepends=True)` loop of
`split_message` in `bot.py`; the state is `(parts, buf, cur)`. -/
def split_message_step (limit : Nat) (st : List (List Char) × List (List Char) × Nat)
    (line : List Char) : List (List Char) × List (List Char) × Nat :=
  let (parts, buf, cur) := st
  if cur + line.length > limit ∧ buf ≠ [] then
    (parts ++ [buf.flatten], [line], line.length)
  else
    (parts, buf ++ [line], cur + line.length)

/-- Embeds `split_message` in `bot.py`: greedy grouping of whole lines into
chunks of at most `limit` characters (a single over-long line still becomes
one chunk). -/
def split_message (text : List Char) (limit : Nat) : List (List Char) :=
  let st := (splitlines text).foldl (split_message_step limit) ([], [], 0)
  if st.2.1 ≠ [] then st.1 ++ [st.2.1.flatten] else st.1

/-- Concrete database for claim C1: user 10 owns payment rowid 1 with
provider id "yk1", package of 7 units, already settled (`status =
"succeeded"`) and already credited (balance 7), no referrer. -/
def db_C1 : DB :=
  { users := [⟨10, none, 7, none, 0, none, 0⟩],
    payments := [⟨1, 10, "pack_7", 7, 260, "succeeded", "yk1", none, 0, 0⟩],
    scripts := [], referrals := [],
    next_payment_id := 2, next_script_id := 1, next_referral_id := 1 }

/-- Concrete database for claim C2: user 2 was referred by user 1
(`referred_by = 1`, one unrewarded referral row) and has two pending
payments "a" and "b", both carrying `referrer_id = 1`. -/
def db_C2 : DB :=
  { users := [⟨1, none, 0, none, 0, none, 0⟩, ⟨2, none, 0, none, 0, some 1, 0⟩],
    payments := [⟨1, 2, "pack_7", 7, 260, "pending", "a", some 1, 0, 0⟩,
                 ⟨2, 2, "pack_7", 7, 260, "pending", "b", some 1, 0, 0⟩],
    scripts := [], referrals := [⟨1, 1, 2, false, none, 0⟩],
    next_payment_id := 3, next_script_id := 1, next_referral_id := 2 }

/-- Concrete database for claim C3's counterexample: user 10 with zero
balance and an untouched free slot (`last_free_at = NULL`). -/
def db_C3 : DB :=
  { users := [⟨10, none, 0, none, 0, none, 0⟩],
    payments := [], scripts := [], referrals := [],
    next_payment_id := 1, next_script_id := 1, next_referral_id := 1 }

/-- Concrete database for claim C3's witness, credit branch: user 10 with
balance 5. -/
def db_C3b : DB :=
  { users := [⟨10, none, 5, none, 0, none, 0⟩],
    payments := [], scripts := [], referrals := [],
    next_payment_id := 1, next_script_id := 1, next_referral_id := 1 }

/-- Concrete database for claim C3's witness, free branch: user 11 with zero
balance and a free slot available. -/
def db_C3f : DB :=
  { users := [⟨11, none, 0, none, 0, none, 0⟩],
    payments := [], scripts := [], referrals := [],
    next_payment_id := 1, next_script_id := 1, next_referral_id := 1 }

/-- Concrete database for claim C4: user 6 has both a positive credit
balance (1) and an available free slot (`last_free_at = NULL`). -/
def db_C4 : DB :=
  { users := [⟨6, none, 1, none, 0, none, 0⟩],
    payments := [], scripts := [], referrals := [],
    next_payment_id := 1, next_script_id := 1, next_referral_id := 1 }

/-- Concrete database for claim C5: user 7 with zero balance used the free
generation at instant 0 (midnight UTC of day 0). -/
def db_C5 : DB :=
  { users := [⟨7, none, 0, some 0, 0, none, 0⟩],
    payments := [], scripts := [], referrals := [],
    next_payment_id := 1, next_script_id := 1, next_referral_id := 1 }

/-- Concrete database for claim C6: user 8 with zero balance. -/
def db_C6 : DB :=
  { users := [⟨8, none, 0, none, 0, none, 0⟩],
    payments := [], scripts := [], referrals := [],
    next_payment_id := 1, next_script_id := 1, next_referral_id := 1 }

/-- Concrete database for claim C7: one user and one unrelated pending
payment with provider id "other"; no payment has provider id "zzz". -/
def db_C7 : DB :=
  { users := [⟨10, none, 3, none, 0, none, 0⟩],
    payments := [⟨1, 10, "pack_7", 7, 260, "pending", "other", none, 0, 0⟩],
    scripts := [], referrals := [],
    next_payment_id := 2, next_script_id := 1, next_referral_id := 1 }

/-- Concrete database for claim C10's witness: one pending payment with
provider id "w". -/
def db_C10w : DB :=
  { users := [⟨10, none, 3, none, 0, none, 0⟩],
    payments := [⟨1, 10, "pack_30", 30, 1050, "pending", "w", none, 0, 0⟩],
    scripts := [], referrals := [],
    next_payment_id := 2, next_script_id := 1, next_referral_id := 1 }

/-! ## General lemmas about the embedded operations -/

theorem takeLine_append (s : List Char) : (takeLine s).1 ++ (takeLine s).2 = s := by
  induction s with
  | nil => simp [takeLine]
  | cons c rest ih =>
    by_cases hb : isLineBreak c
    · by_cases hc : c = '\r'
      · subst hc
        cases rest with
        | nil => simp [takeLine, (by decide : isLineBreak '\r' = true)]
        | cons d rest2 =>
          by_cases hd : d = '\n'
          · subst hd; simp [takeLine, (by decide : isLineBreak '\r' = true)]
          · simp [takeLine, (by decide : isLineBreak '\r' = true), hd]
      · simp [takeLine, hb, hc]
    · simp only [takeLine, hb, if_false]
      simpa using ih

theorem splitlines_flatten (s : List Char) : (splitlines s).flatten = s := by
  induction s using splitlines.induct with
  | case1 => simp [splitlines]
  | case2 c rest ih =>
    rw [splitlines]
    simp only [List.flatten_cons]
    rw [ih, takeLine_append]

/-- Loop invariant of `split_message`: flattening the emitted parts followed
by the pending buffer always reproduces the lines consumed so far. -/
theorem split_message_foldl_flatten (limit : Nat) (lines : List (List Char)) :
    ∀ (parts buf : List (List Char)) (cur : Nat),
      (lines.foldl (split_message_step limit) (parts, buf, cur)).1.flatten ++
        (lines.foldl (split_message_step limit) (parts, buf, cur)).2.1.flatten =
      parts.flatten ++ (buf.flatten ++ lines.flatten) := by
  induction lines with
  | nil => intro parts buf cur; simp
  | cons line rest ih =>
    intro parts buf cur
    simp only [List.foldl_cons, split_message_step]
    by_cases h : cur + line.length > limit ∧ buf ≠ []
    · rw [if_pos h, ih]
      simp
    · rw [if_neg h, ih]
      simp

/-- Helper for the fold over user rows: `UPDATE ... WHERE user_id=?` composed
with `SELECT ... WHERE user_id=?` applies the rewriting function to the found
row, provided the rewriting does not change `user_id`. -/
theorem find_update_list (l : List UserRow) (u : Nat) (f : UserRow → UserRow)
    (hf : ∀ r, (f r).user_id = r.user_id) :
    (l.map (fun r => if r.user_id = u then f r else r)).find?
        (fun r => decide (r.user_id = u)) =
      (l.find? (fun r => decide (r.user_id = u))).map f := by
  induction l with
  | nil => simp
  | cons a l ih =>
    by_cases ha : a.user_id = u
    · simp [List.find?_cons, ha, hf]
    · simp [List.find?_cons, ha, ih]

/-- A user-row rewrite leaves other users' rows untouched. -/
theorem find_update_list_ne (l : List UserRow) (u v : Nat) (hvu : v ≠ u)
    (f : UserRow → UserRow) (hf : ∀ r, (f r).user_id = r.user_id) :
    (l.map (fun r => if r.user_id = u then f r else r)).find?
        (fun r => decide (r.user_id = v)) =
      l.find? (fun r => decide (r.user_id = v)) := by
  induction l with
  | nil => simp
  | cons a l ih =>
    by_cases ha : a.user_id = u
    · have hfa : (f a).user_id = a.user_id := hf a
      have hav : ¬ a.user_id = v := by rw [ha]; exact fun h => hvu h.symm
      simp [List.find?_cons, ha, hfa, hav, Ne.symm hvu, ih]
    · simp [List.find?_cons, ha, ih]

theorem get_user_row_update_user_balance (db : DB) (u : Nat) (d : Int) :
    get_user_row (update_user_balance db u d) u =
      (get_user_row db u).map (fun r => { r with balance := r.balance + d }) := by
  simpa [get_user_row, update_user_balance] using
    find_update_list db.users u (fun r => { r with balance := r.balance + d }) (fun _ => rfl)

theorem get_user_row_set_user_last_free (db : DB) (u : Nat) (t : Int) :
    get_user_row (set_user_last_free db u t) u =
      (get_user_row db u).map (fun r => { r with last_free_at := some t }) := by
  simpa [get_user_row, set_user_last_free] using
    find_update_list db.users u (fun r => { r with last_free_at := some t }) (fun _ => rfl)

theorem get_user_row_inc_total_generated (db : DB) (u : Nat) :
    get_user_row (inc_total_generated db u) u =
      (get_user_row db u).map (fun r => { r with total_generated := r.total_generated + 1 }) := by
  simpa [get_user_row, inc_total_generated] using
    find_update_list db.users u
      (fun r => { r with total_generated := r.total_generated + 1 }) (fun _ => rfl)

theorem get_user_row_create_script_record (db : DB) (u target : Nat) (theme : String)
    (niche tone : Option String) (content : String) (now : Int) :
    get_user_row (create_script_record db u theme niche tone content now).1 target =
      get_user_row db target := by
  simp [get_user_row, create_script_record]

/-- An `UPDATE payments ... WHERE yk_id=?` with no matching row leaves the
payments list unchanged. -/
theorem map_payments_no_match (l : List PaymentRow) (yk : String)
    (h : ∀ p ∈ l, p.yk_id ≠ yk) (f : PaymentRow → PaymentRow) :
    l.map (fun p => if p.yk_id = yk then f p else p) = l := by
  induction l with
  | nil => simp
  | cons a l ih =>
    have ha : a.yk_id ≠ yk := h a (List.mem_cons_self a l)
    simp only [List.map_cons, if_neg ha]
    rw [ih (fun p hp => h p (List.mem_cons_of_mem a hp))]

/-! ## Claims -/

/-- Claim C1: the spec says settlement is idempotent per payment id — for a
payment already in a terminal state, replaying `(paymentID, succeeded)` must
leave balances unchanged. The code has no terminal-state check: in `db_C1`
the payment "yk1" is already `succeeded` and its 7 units already credited
(balance 7), yet one more delivery of `payment.succeeded` credits the 7
units again, leaving balance 14. -/
theorem C1_succeeded_replay_double_credits :
    get_payment_by_yk_id db_C1 "yk1" =
      some ⟨1, 10, "pack_7", 7, 260, "succeeded", "yk1", none, 0, 0⟩ ∧
    (get_user_row db_C1 10).map (fun u => u.balance) = some 7 ∧
    (get_user_row (yk_webhook_handler db_C1 (some "payment.succeeded") (some "yk1") 5).1 10).map
      (fun u => u.balance) = some 14 := by decide

/-- Claim C2: the spec says a referrer is rewarded at most once per referee.
In `db_C2` user 2 (referred by user 1) pays twice; after both
`payment.succeeded` deliveries the referrer's balance has increased by 2 (one
bonus per payment) and two referral rows for referee 2 are marked rewarded —
the code creates and rewards a fresh row when no unrewarded row is found. -/
theorem C2_second_payment_rewards_referrer_again :
    (get_user_row
        (yk_webhook_handler (yk_webhook_handler db_C2 (some "payment.succeeded") (some "a") 5).1
          (some "payment.succeeded") (some "b") 6).1 1).map (fun u => u.balance) = some 2 ∧
    ((yk_webhook_handler (yk_webhook_handler db_C2 (some "payment.succeeded") (some "a") 5).1
        (some "payment.succeeded") (some "b") 6).1.referrals.countP
      (fun r => decide (r.referee_id = 2) && r.rewarded)) = 2 := by decide

/-- Claim C6, counterexample: `update_user_balance` applies any delta
unconditionally — with balance 0, a delta of −5 stores −5 and signals no
error, contradicting "fails with InvalidAmount whenever the result would be
negative". -/
theorem C6_negative_balance_allowed :
    (get_user_row (update_user_balance db_C6 8 (-5)) 8).map (fun u => u.balance) =
      some (-5) ∧ (-5 : Int) < 0 := by decide

/-- Claim C6, amended: `update_user_balance` adds the delta unconditionally
and never fails; the stored balance is whatever `balance + delta` is, sign
unchecked (nonnegativity is maintained only by the call sites, which debit
just when `balance > 0`). -/
theorem C6_update_user_balance_unconditional (db : DB) (u : Nat) (d : Int) (r0 : UserRow)
    (h : get_user_row db u = some r0) :
    get_user_row (update_user_balance db u d) u =
      some { r0 with balance := r0.balance + d } := by
  rw [get_user_row_update_user_balance, h, Option.map_some']

/-- Witness for C6: applying the amended theorem at user 8 of `db_C6` with
delta −5. -/
theorem C6_update_user_balance_unconditional_witness :
    get_user_row (update_user_balance db_C6 8 (-5)) 8 =
      some ⟨8, none, 0 + (-5), none, 0, none, 0⟩ :=
  C6_update_user_balance_unconditional db_C6 8 (-5) ⟨8, none, 0, none, 0, none, 0⟩ rfl

/-- Claim C7, counterexample: a `payment.succeeded` notification for the
unknown provider id "zzz" leaves the database untouched but answers
`200 "ok"` — the very same response a successfully settled payment gets —
signalling nothing (no `UnknownPayment`). -/
theorem C7_unknown_payment_silently_ok :
    get_payment_by_yk_id db_C7 "zzz" = none ∧
    yk_webhook_handler db_C7 (some "payment.succeeded") (some "zzz") 9 = (db_C7, ⟨200, "ok"⟩) ∧
    (yk_webhook_handler db_C7 (some "payment.succeeded") (some "other") 9).2 = ⟨200, "ok"⟩ := by
  decide

/-- Claim C7, amended: for a notification whose payment id matches no stored
payment, the handler performs no ledger mutation and creates no record (the
database is returned unchanged), but it does not signal `UnknownPayment`: it
responds `200 "ok"`, indistinguishable from a settled payment. -/
theorem C7_unknown_payment_noop (db : DB) (yk : String) (now : Int) (hyk : yk ≠ "")
    (h : ∀ p ∈ db.payments, p.yk_id ≠ yk) :
    yk_webhook_handler db (some "payment.succeeded") (some yk) now = (db, ⟨200, "ok"⟩) := by
  have hmap : db.payments.map
      (fun p => if p.yk_id = yk then { p with status := "succeeded", updated_at := now } else p) =
      db.payments := map_payments_no_match _ _ h _
  have hfind : db.payments.find? (fun p => decide (p.yk_id = yk)) = none :=
    List.find?_eq_none.mpr (fun p hp => by simpa using h p hp)
  simp [yk_webhook_handler, update_payment_status, hyk, hmap, hfind]

/-- Witness for C7: the amended theorem applied to `db_C7` and the unknown
provider id "zzz2". -/
theorem C7_unknown_payment_noop_witness :
    yk_webhook_handler db_C7 (some "payment.succeeded") (some "zzz2") 9 = (db_C7, ⟨200, "ok"⟩) :=
  C7_unknown_payment_noop db_C7 "zzz2" 9 (by decide) (by decide)

/-- Claim C8 (premium stacking, modelled from the spec since `src/bot.py`
has no premium window): starting from no premium or an expired one, calling
`ExtendPremium(u, 7)` twice with no time elapsed yields an expiry 14 days
from today, not 7. -/
theorem C8_extend_premium_stacks (today : Int) (p : Option Int)
    (h : p = none ∨ ∃ d, p = some d ∧ d < today) :
    ExtendPremium p today 7 = today + 7 ∧
    ExtendPremium (some (ExtendPremium p today 7)) today 7 = today + 14 := by
  have h1 : ExtendPremium p today 7 = today + 7 := by
    rcases h with h | ⟨d, hp, hd⟩
    · subst h; rfl
    · subst hp
      simp only [ExtendPremium, if_neg (not_le.mpr hd)]
  refine ⟨h1, ?_⟩
  rw [h1]
  simp only [ExtendPremium, if_pos (by omega : today + 7 ≥ today)]
  omega

/-- Witness for C8: today = 100, no existing premium. -/
theorem C8_extend_premium_stacks_witness :
    ExtendPremium none 100 7 = 100 + 7 ∧
    ExtendPremium (some (ExtendPremium none 100 7)) 100 7 = 100 + 14 :=
  C8_extend_premium_stacks 100 none (Or.inl rfl)

/-- Claim C9: for every input text and positive limit, concatenating the
chunks returned by `split_message` in order reproduces the original text
exactly — chunking never drops, duplicates, or reorders characters. -/
theorem C9_split_message_preserves_text (text : List Char) (limit : Nat) (hpos : 0 < limit) :
    (split_message text limit).flatten = text := by
  have h := split_message_foldl_flatten limit (splitlines text) [] [] 0
  simp only [List.flatten_nil, List.nil_append] at h
  unfold split_message
  by_cases hbuf :
      ((splitlines text).foldl (split_message_step limit) ([], [], 0)).2.1 ≠ []
  · rw [if_pos hbuf, List.flatten_append]
    simp only [List.flatten_cons, List.flatten_nil, List.append_nil]
    rw [h]
    exact splitlines_flatten text
  · rw [if_neg hbuf]
    push_neg at hbuf
    rw [hbuf] at h
    simp only [List.flatten_nil, List.append_nil] at h
    rw [h]
    exact splitlines_flatten text

/-- Witness for C9: a two-line text and limit 3. -/
theorem C9_split_message_preserves_text_witness :
    0 < 3 ∧ (split_message ['a', 'b', '\n', 'c', 'd'] 3).flatten = ['a', 'b', '\n', 'c', 'd'] :=
  ⟨by decide, C9_split_message_preserves_text ['a', 'b', '\n', 'c', 'd'] 3 (by decide)⟩

/-- Claim C10: the webhook maps `payment.canceled`,
`payment.waiting_for_capture` and `refund.succeeded` all to the stored
status "canceled" and touches nothing but the matching payment rows — users
(hence every balance), scripts and referrals are returned unchanged; in
particular a payment currently `waiting_for_capture` at the provider is
recorded locally as canceled. -/
theorem C10_cancel_events_map_to_canceled (db : DB) (event yk : String) (now : Int)
    (hev : event = "payment.canceled" ∨ event = "payment.waiting_for_capture" ∨
      event = "refund.succeeded")
    (hyk : yk ≠ "") :
    yk_webhook_handler db (some event) (some yk) now =
      ({ db with payments := db.payments.map (fun p =>
          if p.yk_id = yk then { p with status := "canceled", updated_at := now } else p) },
       ⟨200, "ok"⟩) := by
  rcases hev with h | h | h <;> subst h <;>
    simp [yk_webhook_handler, update_payment_status, hyk]

/-- Witness for C10: a pending payment "w" receiving
`payment.waiting_for_capture`. -/
theorem C10_cancel_events_map_to_canceled_witness :
    yk_webhook_handler db_C10w (some "payment.waiting_for_capture") (some "w") 3 =
      ({ db_C10w with payments := db_C10w.payments.map (fun p =>
          if p.yk_id = "w" then { p with status := "canceled", updated_at := 3 } else p) },
       ⟨200, "ok"⟩) :=
  C10_cancel_events_map_to_canceled db_C10w "payment.waiting_for_capture" "w" 3
    (Or.inr (Or.inl rfl)) (by decide)

/-- Claim C3, counterexample: user 10 of `db_C3` has an untouched free slot
(`last_free_at = NULL`); a generation request whose downstream work fails
still leaves `last_free_at = now` — the free slot was consumed by the failed
generation, so entitlement state is not "exactly as it was". -/
theorem C3_failed_free_generation_consumes_slot :
    (get_user_row db_C3 10).map (fun u => u.last_free_at) = some none ∧
    (get_user_row (process_generation db_C3 10 100 "t" none none false "s").1 10).map
      (fun u => u.last_free_at) = some (some 100) ∧
    some (some (100 : Int)) ≠ some (none : Option Int) := by decide

/-- Claim C3, amended: when the downstream generation fails, a request paid
from the credit balance ends with the user row exactly as before (the up
front debit of 1 is refunded by the failure handler), but a request paid by
the free slot ends with `last_free_at = now` — the free slot stays consumed
because the failure handler refunds only balance-paid requests. -/
theorem C3_failed_generation_refund (db : DB) (u : Nat) (now : Int) (theme : String)
    (niche tone : Option String) (script : String) (r0 : UserRow)
    (h : get_user_row db u = some r0) :
    (r0.balance > 0 →
      get_user_row (process_generation db u now theme niche tone false script).1 u = some r0) ∧
    (¬ r0.balance > 0 → can_use_free now (some r0) = true →
      get_user_row (process_generation db u now theme niche tone false script).1 u =
        some { r0 with last_free_at := some now }) := by
  constructor
  · intro hb
    simp only [process_generation, h]
    rw [if_pos (by simp [hb])]
    rw [if_neg (by decide : ¬ false = true)]
    rw [if_pos (by decide : ("баланс (-1)" ≠ "" ∧ str_startswith "баланс (-1)" "баланс"))]
    rw [get_user_row_update_user_balance, get_user_row_update_user_balance, h]
    simp only [Option.map_some']
    have hbal : r0.balance + -1 + 1 = r0.balance := by omega
    rw [hbal]
  · intro hb hcf
    simp only [process_generation, h]
    rw [if_neg (by simp [hb])]
    rw [if_pos hcf]
    rw [if_neg (by decide : ¬ false = true)]
    rw [if_neg (by decide :
      ¬ ("бесплатный за неделю" ≠ "" ∧ str_startswith "бесплатный за неделю" "баланс"))]
    rw [get_user_row_set_user_last_free, h]
    simp only [Option.map_some']

/-- Witness for C3: the credit branch on `db_C3b` (balance 5 stays 5 after a
failed generation) and the free branch on `db_C3f` (`last_free_at` becomes
100 after a failed generation). -/
theorem C3_failed_generation_refund_witness :
    get_user_row (process_generation db_C3b 10 100 "t" none none false "s").1 10 =
      some ⟨10, none, 5, none, 0, none, 0⟩ ∧
    get_user_row (process_generation db_C3f 11 100 "t" none none false "s").1 11 =
      some ⟨11, none, 0, some 100, 0, none, 0⟩ := by
  constructor
  · exact (C3_failed_generation_refund db_C3b 10 100 "t" none none "s"
      ⟨10, none, 5, none, 0, none, 0⟩ rfl).1 (by decide)
  · exact (C3_failed_generation_refund db_C3f 11 100 "t" none none "s"
      ⟨11, none, 0, none, 0, none, 0⟩ rfl).2 (by decide) (by decide)

/-- Claim C4, counterexample: user 6 of `db_C4` has both a free slot
available and a positive credit balance, yet the request is paid by a
credit ("баланс (-1)"), not by the free slot — the code checks the balance
first and has no premium branch at all. -/
theorem C4_credit_preferred_over_free_slot :
    can_use_free 100 (get_user_row db_C4 6) = true ∧
    (get_user_row db_C4 6).map (fun u => u.balance) = some 1 ∧
    (process_generation db_C4 6 100 "t" none none true "s").2 =
      GenResult.generated "баланс (-1)" ∧
    GenResult.generated "баланс (-1)" ≠ GenResult.generated "бесплатный за неделю" := by decide

/-- Claim C4, amended: the decision branches evaluate in the order (1)
positive credit balance consumes a credit, (2) otherwise an elapsed free
cooldown consumes the free slot, (3) otherwise deny with the remaining
cooldown hours; there is no premium branch, and a user with both a free slot
and a positive balance pays with a credit. -/
theorem C4_decision_order_credit_first (db : DB) (u : Nat) (now : Int) (theme : String)
    (niche tone : Option String) (g : Bool) (script : String) (r0 : UserRow)
    (h : get_user_row db u = some r0) :
    (r0.balance > 0 →
      (process_generation db u now theme niche tone g script).2 =
        (if g then GenResult.generated "баланс (-1)"
         else GenResult.gen_failed "баланс (-1)")) ∧
    (¬ r0.balance > 0 → can_use_free now (some r0) = true →
      (process_generation db u now theme niche tone g script).2 =
        (if g then GenResult.generated "бесплатный за неделю"
         else GenResult.gen_failed "бесплатный за неделю")) ∧
    (¬ r0.balance > 0 → can_use_free now (some r0) = false →
      ∀ last, r0.last_free_at = some last →
        process_generation db u now theme niche tone g script =
          (db, GenResult.denied_cooldown ((last + FREE_COOLDOWN_HOURS * 3600 - now) / 3600))) := by
  refine ⟨?_, ?_, ?_⟩
  · intro hb
    simp only [process_generation, h]
    rw [if_pos (by simp [hb])]
    cases g <;> simp
  · intro hb hcf
    simp only [process_generation, h]
    rw [if_neg (by simp [hb])]
    rw [if_pos hcf]
    cases g <;> simp
  · intro hb hcf last hlast
    simp only [process_generation, h]
    rw [if_neg (by simp [hb])]
    rw [if_neg (by simp [hcf])]
    rw [hlast]

/-- Witness for C4: user 6 of `db_C4` (balance 1, free slot available) pays
with a credit. -/
theorem C4_decision_order_credit_first_witness :
    (process_generation db_C4 6 100 "t" none none true "s").2 =
      (if true then GenResult.generated "баланс (-1)"
       else GenResult.gen_failed "баланс (-1)") :=
  (C4_decision_order_credit_first db_C4 6 100 "t" none none true "s"
    ⟨6, none, 1, none, 0, none, 0⟩ rfl).1 (by decide)

/-- Claim C5, counterexample: user 7 of `db_C5` used the free generation at
instant 0 and has no balance; at instant 86400 — the next UTC calendar day —
the claim says the quota is regained, but the code still denies with ~144
hours of cooldown left, because free usage is a rolling 7-day cooldown, not
a per-UTC-day counter. -/
theorem C5_next_utc_day_still_denied :
    utc_day 86400 ≠ utc_day 0 ∧
    (get_user_row db_C5 7).map (fun u => u.last_free_at) = some (some 0) ∧
    (get_user_row db_C5 7).map (fun u => u.balance) = some 0 ∧
    (process_generation db_C5 7 86400 "t" none none true "s").2 =
      GenResult.denied_cooldown 144 := by decide

/-- Claim C5, amended: free-usage accounting is a rolling
`FREE_COOLDOWN_HOURS = 168` hour cooldown on `last_free_at`: with no
balance, a request is paid by the free slot (recording `last_free_at = now`)
exactly when `now - last ≥ 168` hours, and otherwise denied with the
remaining hours — there is no daily counter and no reset at UTC day
boundaries. -/
theorem C5_free_quota_rolling_cooldown (db : DB) (u : Nat) (now last : Int) (theme : String)
    (niche tone : Option String) (g : Bool) (script : String) (r0 : UserRow)
    (h : get_user_row db u = some r0) (hb : ¬ r0.balance > 0)
    (hlast : r0.last_free_at = some last) :
    (now - last ≥ FREE_COOLDOWN_HOURS * 3600 →
      (get_user_row (process_generation db u now theme niche tone g script).1 u).map
        (fun r => r.last_free_at) = some (some now)) ∧
    (now - last < FREE_COOLDOWN_HOURS * 3600 →
      process_generation db u now theme niche tone g script =
        (db, GenResult.denied_cooldown ((last + FREE_COOLDOWN_HOURS * 3600 - now) / 3600))) := by
  constructor
  · intro hge
    have hcf : can_use_free now (some r0) = true := by
      simp [can_use_free, hlast, hge]
    simp only [process_generation, h]
    rw [if_neg (by simp [hb])]
    rw [if_pos hcf]
    cases g
    · rw [if_neg (by decide : ¬ false = true)]
      rw [if_neg (by decide :
        ¬ ("бесплатный за неделю" ≠ "" ∧ str_startswith "бесплатный за неделю" "баланс"))]
      rw [get_user_row_set_user_last_free, h]
      simp
    · rw [if_pos rfl]
      rw [get_user_row_inc_total_generated, get_user_row_create_script_record,
        get_user_row_set_user_last_free, h]
      simp
  · intro hlt
    have hcf : can_use_free now (some r0) = false := by
      simp [can_use_free, hlast]
      omega
    simp only [process_generation, h]
    rw [if_neg (by simp [hb])]
    rw [if_neg (by simp [hcf])]
    rw [hlast]

/-- Witness for C5: user 7 of `db_C5` (`last_free_at = 0`) one day later is
still denied with the remaining cooldown. -/
theorem C5_free_quota_rolling_cooldown_witness :
    process_generation db_C5 7 86400 "t" none none true "s" =
      (db_C5, GenResult.denied_cooldown ((0 + FREE_COOLDOWN_HOURS * 3600 - 86400) / 3600)) :=
  (C5_free_quota_rolling_cooldown db_C5 7 86400 0 "t" none none true "s"
    ⟨7, none, 0, some 0, 0, none, 0⟩ rfl (by decide) rfl).2 (by decide)
